import Mathlib

/-! Verification of the CDP Network Audit form controller.

A shallow embedding of `MyPackage/MyGui.py`: the `FormState` data model, the
`validation` submit handler (including its `try/except ValueError` wrapper around
`ipaddress.ip_address`), and the `get_folder_path` folder picker.  The embedding of
`ipaddress.ip_address` follows CPython's `ipaddress` module (`IPv4Address` /
`IPv6Address` string parsing), which the program imports.
-/

namespace CDPAudit

/-! ## Model of CPython `ipaddress` string parsing -/

/-- The digit value of a decimal digit character, if it is one. -/
def decDigitVal (c : Char) : Option Nat :=
  if '0' ≤ c ∧ c ≤ '9' then some (c.toNat - '0'.toNat) else none

/-- The digit value of a hexadecimal digit character, if it is one
(CPython `_HEX_DIGITS = frozenset('0123456789ABCDEFabcdef')`). -/
def hexDigitVal (c : Char) : Option Nat :=
  if '0' ≤ c ∧ c ≤ '9' then some (c.toNat - '0'.toNat)
  else if 'a' ≤ c ∧ c ≤ 'f' then some (c.toNat - 'a'.toNat + 10)
  else if 'A' ≤ c ∧ c ≤ 'F' then some (c.toNat - 'A'.toNat + 10)
  else none

/-- Value of a list of digits in the given base, assuming every digit is valid
(`int(s, base)` on an already-validated digit string). -/
def digitsVal (base : Nat) (dval : Char → Option Nat) : List Char → Nat → Option Nat
  | [], acc => some acc
  | c :: cs, acc =>
    match dval c with
    | some d => digitsVal base dval cs (acc * base + d)
    | none => none

/-- Python `str.split(sep)` for a single-character separator: splits at every
occurrence of `sep`, keeping empty pieces (so `"".split(sep) == [""]`). -/
def pySplit (sep : Char) : List Char → List (List Char)
  | [] => [[]]
  | c :: cs =>
    if c = sep then [] :: pySplit sep cs
    else
      match pySplit sep cs with
      | [] => [[c]]
      | p :: ps => (c :: p) :: ps

/-- CPython `IPv4Address._parse_octet`: a decimal octet of an IPv4 dotted quad.
Rejects the empty string, non-digits, more than 3 characters, leading zeros
(unless the octet is exactly "0"), and values above 255. -/
def parseOctet (s : List Char) : Option Nat :=
  if s = [] then none
  else if ¬ s.all (fun c => (decDigitVal c).isSome) then none
  else if s.length > 3 then none
  else if s ≠ ['0'] ∧ s.head? = some '0' then none
  else
    match digitsVal 10 decDigitVal s 0 with
    | some n => if n > 255 then none else some n
    | none => none

/-- CPython `IPv4Address._ip_int_from_string`: split on ".", expect exactly four
valid octets, and combine them big-endian into the 32-bit address value. -/
def ipv4IntFromString (s : List Char) : Option Nat :=
  if s = [] then none
  else
    match (pySplit '.' s).mapM parseOctet with
    | some [a, b, c, d] => some (((a * 256 + b) * 256 + c) * 256 + d)
    | _ => none

/-- CPython `IPv4Address.__init__` on a string: reject a "/" anywhere, then parse
the dotted quad. -/
def mkIPv4Address (s : List Char) : Option Nat :=
  if s.contains '/' then none else ipv4IntFromString s

/-- CPython `IPv6Address._parse_hextet`: 1 to 4 hex digits. -/
def parseHextet (s : List Char) : Option Nat :=
  if s = [] then none
  else if ¬ s.all (fun c => (hexDigitVal c).isSome) then none
  else if s.length > 4 then none
  else digitsVal 16 hexDigitVal s 0

/-- Lowercase hex rendering of a natural number (CPython `'%x' % n`), used when an
IPv4-style suffix is rewritten into two hextets. -/
def toHexChars (n : Nat) : List Char :=
  Nat.toDigits 16 n

/-- Combine parsed hextets big-endian. -/
def hextetsVal (l : List Nat) (acc : Nat) : Nat :=
  l.foldl (fun a h => a * 65536 + h) acc

/-- CPython `IPv6Address._ip_int_from_string`: split on ":", rewrite an IPv4-style
last part into two hextets, locate at most one "::" (an empty interior part), check
the part-count bookkeeping around it, and combine the hextets into the 128-bit
value. -/
def ipv6IntFromString (s : List Char) : Option Nat :=
  if s = [] then none
  else
    let parts0 := pySplit ':' s
    if parts0.length < 3 then none
    else
      let conv : Option (List (List Char)) :=
        match parts0.getLast? with
        | some last =>
          if last.contains '.' then
            match mkIPv4Address last with
            | some v4 =>
              some (parts0.dropLast ++ [toHexChars (v4 / 65536), toHexChars (v4 % 65536)])
            | none => none
          else some parts0
        | none => some parts0
      match conv with
      | none => none
      | some parts =>
        if parts.length > 9 then none
        else
          let n := parts.length
          let interior := (parts.drop 1).take (n - 2)
          if (interior.filter (fun p => p = [])).length ≥ 2 then none
          else
            match interior.indexOf? [] with
            | some i =>
              let skipIndex := i + 1
              let partsHi := skipIndex
              let partsLo := n - skipIndex - 1
              let firstEmpty := parts.head? = some []
              let lastEmpty := parts.getLast? = some []
              if firstEmpty ∧ partsHi - 1 ≠ 0 then none
              else if lastEmpty ∧ partsLo - 1 ≠ 0 then none
              else
                let partsHi := if firstEmpty then partsHi - 1 else partsHi
                let partsLo := if lastEmpty then partsLo - 1 else partsLo
                if 8 - (partsHi + partsLo) < 1 then none
                else
                  match (parts.take partsHi).mapM parseHextet,
                        (parts.drop (n - partsLo)).mapM parseHextet with
                  | some hi, some lo =>
                    some (hextetsVal lo (hextetsVal hi 0 * 65536 ^ (8 - (partsHi + partsLo))))
                  | _, _ => none
            | none =>
              if n ≠ 8 then none
              else if parts.head? = some [] then none
              else if parts.getLast? = some [] then none
              else
                match parts.mapM parseHextet with
                | some hs => some (hextetsVal hs 0)
                | none => none

/-- CPython `IPv6Address._split_scope_id`: split `addr%scope` at the first "%".
A "%" requires a non-empty scope id containing no further "%". -/
def splitScopeId (s : List Char) : Option (List Char × Option (List Char)) :=
  match pySplit '%' s with
  | [addr] => some (addr, none)
  | [addr, scope] => if scope = [] then none else some (addr, some scope)
  | _ => none

/-- CPython `IPv6Address.__init__` on a string: reject "/", split off a scope id,
and parse the address part. -/
def mkIPv6Address (s : List Char) : Option (Nat × Option (List Char)) :=
  if s.contains '/' then none
  else
    match splitScopeId s with
    | some (addr, scope) =>
      match ipv6IntFromString addr with
      | some n => some (n, scope)
      | none => none
    | none => none

/-- A Python `ipaddress` address object: `IPv4Address` or `IPv6Address`
(with optional scope id). -/
inductive PyIPAddr where
  | v4 (ip : Nat)
  | v6 (ip : Nat) (scope : Option (List Char))
  deriving DecidableEq, Repr

/-- The Python exceptions the modelled code can raise. -/
inductive PyExc where
  | valueError
  deriving DecidableEq, Repr

deriving instance DecidableEq for Except

/-- CPython `ipaddress.ip_address`: try `IPv4Address`, then `IPv6Address`, and raise
`ValueError` when both fail. -/
def ip_address (s : String) : Except PyExc PyIPAddr :=
  match mkIPv4Address s.data with
  | some n => Except.ok (PyIPAddr.v4 n)
  | none =>
    match mkIPv6Address s.data with
    | some (n, scope) => Except.ok (PyIPAddr.v6 n scope)
    | none => Except.error PyExc.valueError

/-- Python truthiness of an `ipaddress` address object: `IPv4Address` and
`IPv6Address` define neither `__bool__` nor `__len__`, so `bool(obj)` is always
`True`. -/
def pyTruthy (_ : PyIPAddr) : Bool := true

end CDPAudit

namespace CDPAudit

/-! ## Data model: the form fields and the widgets of `MyGUIClass` -/

/-- The values of the form's `StringVar`s (the spec's `FormState`).  Tkinter
string variables hold arbitrary strings; the two comboboxes are readonly with
values `{"Yes", "No"}` resp. server names, but their backing variables are still
strings. -/
structure FormState where
  siteName : String
  username : String
  password : String
  retryWithAnswerCreds : String
  answerPassword : String
  coreSwitch1 : String
  coreSwitch2 : String
  resultsFolder : String
  jumpServer : String
  debugging : String
  deriving DecidableEq, Repr

/-- The tkinter `state` option of each widget that `validation` touches
(`"normal"`, `"disabled"`, or `"readonly"`). -/
structure Widgets where
  site_Name_entry : String
  username_entry : String
  password_entry : String
  answer_redo : String
  answer_password_entry : String
  iP_Address1_entry : String
  iP_Address2_entry : String
  folderPath_entry : String
  browse_button : String
  jumpServer : String
  debugging : String
  submit_button : String
  cancel_button : String
  deriving DecidableEq, Repr

/-- The whole GUI: field values, widget states, and whether the toplevel window
still exists (`master.destroy()` sets it to `false`). -/
structure GuiState where
  form : FormState
  widgets : Widgets
  windowOpen : Bool
  deriving DecidableEq, Repr

/-- A modal dialog call: `showerror(title, message)` or `showinfo(title, message)`. -/
inductive Dialog where
  | error (title : String) (message : String)
  | info (title : String) (message : String)
  deriving DecidableEq, Repr

/-- Widget states after `__init__`: every widget `"normal"` except the two
readonly comboboxes and the folder-path entry, which starts `"disabled"`. -/
def initWidgets : Widgets where
  site_Name_entry := "normal"
  username_entry := "normal"
  password_entry := "normal"
  answer_redo := "readonly"
  answer_password_entry := "normal"
  iP_Address1_entry := "normal"
  iP_Address2_entry := "normal"
  folderPath_entry := "disabled"
  browse_button := "normal"
  jumpServer := "readonly"
  debugging := "readonly"
  submit_button := "normal"
  cancel_button := "normal"

/-- Field values after `__init__`: empty entries; `answer_redo.current(0)` selects
`"Yes"`, `JumpServer.current(0)` selects `"MMFTH1V-MGMTS02"`, and
`Debugging.current(0)` selects `"Off"`. -/
def initForm : FormState where
  siteName := ""
  username := ""
  password := ""
  retryWithAnswerCreds := "Yes"
  answerPassword := ""
  coreSwitch1 := ""
  coreSwitch2 := ""
  resultsFolder := ""
  jumpServer := "MMFTH1V-MGMTS02"
  debugging := "Off"

/-- The GUI right after `MyGUIClass(root)` is constructed. -/
def initState : GuiState where
  form := initForm
  widgets := initWidgets
  windowOpen := true

/-! ## The dialog messages of `validation` -/

def msgSiteNameEmpty : String :=
  "Site Name field is empty\nPlease check and try again!"

def msgUsernameEmpty : String :=
  "Username field is empty\nPlease check and try again!"

def msgPasswordEmpty : String :=
  "Password field is empty\nPlease check and try again!"

def msgAnswerPasswordEmpty : String :=
  "Answer Password field is empty\nPlease check and try again!"

def msgCoreSwitch1Invalid : String :=
  "Core Switch 1 field is empty or IP is invalid\nPlease check and try again!"

def msgCoreSwitch2Invalid : String :=
  "Core Switch 1 IP is invalid\nPlease check and try again!"

def msgFolderEmpty : String :=
  "Results file location field is empty\nPlease check and try again!"

def msgGenericInvalidIP : String :=
  "One of the IP Addresses you provided is invalid\nPlease check and try again!"

def msgRunningInBackground : String :=
  "Your script is running in the background\nand may take a few minutes\nYou will be notified upon completion!"

/-! ## The `validation` handler -/

/-- The `else` branch of `validation`: disable all twelve widgets it names
(the cancel button is left alone), show the `showinfo` dialog, and destroy the
window. -/
def submitSuccess (g : GuiState) : GuiState where
  form := g.form
  widgets :=
    { site_Name_entry := "disabled"
      username_entry := "disabled"
      password_entry := "disabled"
      answer_redo := "disabled"
      answer_password_entry := "disabled"
      iP_Address1_entry := "disabled"
      iP_Address2_entry := "disabled"
      folderPath_entry := "disabled"
      browse_button := "disabled"
      jumpServer := "disabled"
      debugging := "disabled"
      submit_button := "disabled"
      cancel_button := g.widgets.cancel_button }
  windowOpen := false

/-- The body of the `try:` block of `MyGUIClass.validation`, with Python's
`elif` chain written as nested conditionals and each `ipaddress.ip_address` call
allowed to raise.  The result is the new GUI state and the list of dialogs shown.
`self.IP_Address2_var.get() and not ip_address(...)` evaluates the second operand
only when the string is non-empty, and falls through to the remaining `elif`s when
the conjunction is false. -/
def validationBody (g : GuiState) : Except PyExc (GuiState × List Dialog) :=
  if g.form.siteName = "" then
    Except.ok (g, [Dialog.error "Error" msgSiteNameEmpty])
  else if g.form.username = "" then
    Except.ok (g, [Dialog.error "Error" msgUsernameEmpty])
  else if g.form.password = "" then
    Except.ok (g, [Dialog.error "Error" msgPasswordEmpty])
  else if g.form.retryWithAnswerCreds = "Yes" ∧ g.form.answerPassword = "" then
    Except.ok (g, [Dialog.error "Error" msgAnswerPasswordEmpty])
  else
    match ip_address g.form.coreSwitch1 with
    | Except.error e => Except.error e
    | Except.ok a1 =>
      if ¬ pyTruthy a1 then
        Except.ok (g, [Dialog.error "Error" msgCoreSwitch1Invalid])
      else if g.form.coreSwitch2 ≠ "" then
        match ip_address g.form.coreSwitch2 with
        | Except.error e => Except.error e
        | Except.ok a2 =>
          if ¬ pyTruthy a2 then
            Except.ok (g, [Dialog.error "Error" msgCoreSwitch2Invalid])
          else if g.form.resultsFolder = "" then
            Except.ok (g, [Dialog.error "Error" msgFolderEmpty])
          else
            Except.ok (submitSuccess g, [Dialog.info "Information" msgRunningInBackground])
      else if g.form.resultsFolder = "" then
        Except.ok (g, [Dialog.error "Error" msgFolderEmpty])
      else
        Except.ok (submitSuccess g, [Dialog.info "Information" msgRunningInBackground])

/-- The method `MyGUIClass.validation`: run the `try:` body; `except ValueError:`
shows the generic invalid-IP error dialog and leaves the state untouched. -/
def validation (g : GuiState) : GuiState × List Dialog :=
  match validationBody g with
  | Except.ok r => r
  | Except.error PyExc.valueError => (g, [Dialog.error "Error" msgGenericInvalidIP])

/-- The method `MyGUIClass.get_folder_path`: `filedialog.askdirectory()` returns the chosen
directory, or the empty string when the user cancels (tkinter's behaviour for a
cancelled dialog); the result is unconditionally stored into `FolderPath_var`.
The dialog outcome is passed in as `some path` (chosen) or `none` (cancelled). -/
def get_folder_path (g : GuiState) (choice : Option String) : GuiState :=
  let folder_selected := match choice with | some p => p | none => ""
  { g with form := { g.form with resultsFolder := folder_selected } }

/-- Modelled from the spec: the Form Controller's state machine (§4.1).  `Editing`
is the initial state; `Submitted` is the terminal state entered when the success
branch runs, which is observable in the code as the window having been destroyed. -/
inductive CtrlState where
  | Editing
  | Submitted
  deriving DecidableEq, Repr

/-- Modelled from the spec: the abstraction function from the concrete GUI state
to the controller state of §4.1. -/
def ctrlState (g : GuiState) : CtrlState :=
  if g.windowOpen then CtrlState.Editing else CtrlState.Submitted

/-! ## Spec-side description: ordered, short-circuit rules (spec §4.1)

`orderedRules` restates the spec's rule list 1-7 with, for each rule, the failure
condition and the dialog the code shows when that rule is the first to fail.
`firstFail` is the spec's "stop at the first failing rule". -/

/-- The seven validation rules in the spec's order.  Each entry is the rule's
failure condition together with the error dialog reported for it.  Rules 5 and 6
fail exactly when `ipaddress.ip_address` raises `ValueError`, and their reported
dialog is the generic one of the `except ValueError:` handler. -/
def orderedRules (f : FormState) : List (Bool × Dialog) :=
  [ (f.siteName = "", Dialog.error "Error" msgSiteNameEmpty),
    (f.username = "", Dialog.error "Error" msgUsernameEmpty),
    (f.password = "", Dialog.error "Error" msgPasswordEmpty),
    (f.retryWithAnswerCreds = "Yes" ∧ f.answerPassword = "",
      Dialog.error "Error" msgAnswerPasswordEmpty),
    (¬ (ip_address f.coreSwitch1).isOk, Dialog.error "Error" msgGenericInvalidIP),
    (f.coreSwitch2 ≠ "" ∧ ¬ (ip_address f.coreSwitch2).isOk,
      Dialog.error "Error" msgGenericInvalidIP),
    (f.resultsFolder = "", Dialog.error "Error" msgFolderEmpty) ]

/-- Short-circuit evaluation of an ordered rule list: the dialog of the first
failing rule, or `none` when every rule passes. -/
def firstFail : List (Bool × Dialog) → Option Dialog
  | [] => none
  | (b, d) :: rest => if b then some d else firstFail rest

end CDPAudit

namespace CDPAudit

/-! ## Further definitions used by the claims and their witnesses -/

/-- The function `validation` with the `except ValueError:` handler made explicit: a raised
`ValueError` is caught and replaced by the generic invalid-IP error dialog; any
other exception would stay in the `Except.error` case and propagate. -/
def validationHandled (g : GuiState) : Except PyExc (GuiState × List Dialog) :=
  match validationBody g with
  | Except.ok r => Except.ok r
  | Except.error PyExc.valueError =>
    Except.ok (g, [Dialog.error "Error" msgGenericInvalidIP])

/-- Whether `pat` occurs as a contiguous character sequence inside `s`. -/
def containsSeq (pat : List Char) : List Char → Bool
  | [] => decide (pat = [])
  | c :: cs => pat.isPrefixOf (c :: cs) || containsSeq pat cs

/-- A form whose earlier fields pass and whose Core Switch 1 entry is
"999.999.999.999" (the spec's Scenario B). -/
def stateScenarioB : GuiState where
  form :=
    { siteName := "HQ"
      username := "admin"
      password := "x"
      retryWithAnswerCreds := "No"
      answerPassword := ""
      coreSwitch1 := "999.999.999.999"
      coreSwitch2 := ""
      resultsFolder := "/tmp/out"
      jumpServer := "MMFTH1V-MGMTS02"
      debugging := "Off" }
  widgets := initWidgets
  windowOpen := true

/-- A form whose earlier rules pass, whose Core Switch 1 is valid, and whose
Core Switch 2 entry is the non-empty invalid string "abc". -/
def stateInvalidCS2 : GuiState where
  form :=
    { siteName := "HQ"
      username := "admin"
      password := "x"
      retryWithAnswerCreds := "No"
      answerPassword := ""
      coreSwitch1 := "10.0.0.1"
      coreSwitch2 := "abc"
      resultsFolder := "/tmp/out"
      jumpServer := "MMFTH1V-MGMTS02"
      debugging := "Off" }
  widgets := initWidgets
  windowOpen := true

/-- A concrete state whose site name is empty while every other field is filled
in (some invalidly). -/
def stateEmptySiteName : GuiState where
  form :=
    { siteName := ""
      username := "admin"
      password := "x"
      retryWithAnswerCreds := "Yes"
      answerPassword := ""
      coreSwitch1 := "not-an-ip"
      coreSwitch2 := "also-bad"
      resultsFolder := ""
      jumpServer := "AR31NOC"
      debugging := "On" }
  widgets := initWidgets
  windowOpen := true

/-- A concrete state with the retry combobox on "Yes" and an empty answer
password, everything else valid. -/
def stateMissingAnswerPW : GuiState where
  form :=
    { siteName := "HQ"
      username := "admin"
      password := "x"
      retryWithAnswerCreds := "Yes"
      answerPassword := ""
      coreSwitch1 := "10.0.0.1"
      coreSwitch2 := ""
      resultsFolder := "/tmp/out"
      jumpServer := "MMFTH1V-MGMTS02"
      debugging := "Off" }
  widgets := initWidgets
  windowOpen := true

/-- A concrete state with Core Switch 2 empty and the results folder missing. -/
def stateEmptyFolder : GuiState where
  form :=
    { siteName := "HQ"
      username := "admin"
      password := "x"
      retryWithAnswerCreds := "No"
      answerPassword := ""
      coreSwitch1 := "10.0.0.1"
      coreSwitch2 := ""
      resultsFolder := ""
      jumpServer := "MMFTH1V-MGMTS02"
      debugging := "Off" }
  widgets := initWidgets
  windowOpen := true

/-- The twelve widget states the success branch of `validation` sets to
`"disabled"`: every widget wired to the form, the browse and submit buttons and
the comboboxes (the cancel button is the only one left alone). -/
def frozenWidgets (w : Widgets) : Bool :=
  (w.site_Name_entry = "disabled") && (w.username_entry = "disabled") &&
  (w.password_entry = "disabled") && (w.answer_redo = "disabled") &&
  (w.answer_password_entry = "disabled") && (w.iP_Address1_entry = "disabled") &&
  (w.iP_Address2_entry = "disabled") && (w.folderPath_entry = "disabled") &&
  (w.browse_button = "disabled") && (w.jumpServer = "disabled") &&
  (w.debugging = "disabled") && (w.submit_button = "disabled")

/-- The spec's Scenario A: every field valid, Core Switch 2 left empty. -/
def stateScenarioA : GuiState where
  form :=
    { siteName := "HQ"
      username := "admin"
      password := "x"
      retryWithAnswerCreds := "No"
      answerPassword := ""
      coreSwitch1 := "10.0.0.1"
      coreSwitch2 := ""
      resultsFolder := "/tmp/out"
      jumpServer := "MMFTH1V-MGMTS02"
      debugging := "Off" }
  widgets := initWidgets
  windowOpen := true

/-- A concrete state in which a results folder was previously chosen. -/
def statePriorFolder : GuiState where
  form :=
    { siteName := "HQ"
      username := "admin"
      password := "x"
      retryWithAnswerCreds := "No"
      answerPassword := ""
      coreSwitch1 := "10.0.0.1"
      coreSwitch2 := ""
      resultsFolder := "/tmp/out"
      jumpServer := "AR31NOC"
      debugging := "Off" }
  widgets := initWidgets
  windowOpen := true

/-! ## Helper lemmas -/

/-- Characterization of `validation`: its result is determined by the first
failing rule of the spec's ordered rule list; when every rule passes, the success
branch runs. -/
theorem validation_spec (g : GuiState) :
    validation g =
      match firstFail (orderedRules g.form) with
      | some d => (g, [d])
      | none => (submitSuccess g, [Dialog.info "Information" msgRunningInBackground]) := by
  by_cases h1 : g.form.siteName = ""
  · simp [validation, validationBody, orderedRules, firstFail, h1]
  by_cases h2 : g.form.username = ""
  · simp [validation, validationBody, orderedRules, firstFail, h1, h2]
  by_cases h3 : g.form.password = ""
  · simp [validation, validationBody, orderedRules, firstFail, h1, h2, h3]
  by_cases h4 : g.form.retryWithAnswerCreds = "Yes" ∧ g.form.answerPassword = ""
  · simp [validation, validationBody, orderedRules, firstFail, h1, h2, h3, h4]
  cases h5 : ip_address g.form.coreSwitch1 with
  | error e =>
    cases e
    simp [validation, validationBody, orderedRules, firstFail, Except.isOk, Except.toBool,
      h1, h2, h3, h4, h5]
  | ok a1 =>
    by_cases h6 : g.form.coreSwitch2 = ""
    · by_cases h7 : g.form.resultsFolder = ""
      · simp [validation, validationBody, orderedRules, firstFail, Except.isOk, Except.toBool, pyTruthy,
          h1, h2, h3, h4, h5, h6, h7]
      · simp [validation, validationBody, orderedRules, firstFail, Except.isOk, Except.toBool, pyTruthy,
          h1, h2, h3, h4, h5, h6, h7]
    · cases h8 : ip_address g.form.coreSwitch2 with
      | error e2 =>
        cases e2
        simp [validation, validationBody, orderedRules, firstFail, Except.isOk, Except.toBool, pyTruthy,
          h1, h2, h3, h4, h5, h6, h8]
      | ok a2 =>
        by_cases h7 : g.form.resultsFolder = ""
        · simp [validation, validationBody, orderedRules, firstFail, Except.isOk, Except.toBool, pyTruthy,
            h1, h2, h3, h4, h5, h6, h7, h8]
        · simp [validation, validationBody, orderedRules, firstFail, Except.isOk, Except.toBool, pyTruthy,
            h1, h2, h3, h4, h5, h6, h7, h8]

/-- Every dialog a failing rule reports is an error dialog titled "Error". -/
theorem orderedRules_fail_is_error_dialog (f : FormState) (d : Dialog)
    (h : firstFail (orderedRules f) = some d) : ∃ m, d = Dialog.error "Error" m := by
  simp only [orderedRules, firstFail] at h
  split_ifs at h
  all_goals exact ⟨_, (Option.some.inj h).symm⟩

end CDPAudit

namespace CDPAudit

/-! ## Claims -/

/-- C1: `validation` checks the rules in the exact order site name, username,
password, answer password (only when the retry combobox holds "Yes"), Core
Switch 1, Core Switch 2 (only when non-empty), results folder; it stops at the
first failing rule and shows only that rule's dialog, and when every rule passes
the success branch runs.  In particular, an empty site name yields the site-name
error dialog whatever the other fields hold. -/
theorem validation_checks_rules_in_spec_order (g : GuiState) :
    ((validation g).2 =
      (match firstFail (orderedRules g.form) with
       | some d => [d]
       | none => [Dialog.info "Information" msgRunningInBackground])) ∧
    (g.form.siteName = "" →
      validation g = (g, [Dialog.error "Error" msgSiteNameEmpty])) := by
  constructor
  · rw [validation_spec]
    cases firstFail (orderedRules g.form) <;> rfl
  · intro h
    rw [validation_spec]
    simp [orderedRules, firstFail, h]

/-- Witness for C1 at a concrete state: the site name is empty while every other
field is filled in (some invalidly); the site-name dialog is reported. -/
theorem validation_checks_rules_in_spec_order_witness :
    validation stateEmptySiteName =
      (stateEmptySiteName, [Dialog.error "Error" msgSiteNameEmpty]) :=
  (validation_checks_rules_in_spec_order stateEmptySiteName).2 rfl

/-- C9: `validation` terminates normally on every input; the `ValueError` that
`ipaddress.ip_address` raises on a malformed string is caught by the handler and
converted into the result of `validation` (the generic error dialog), so no
exception reaches the caller. -/
theorem validation_never_raises (g : GuiState) :
    validationHandled g = Except.ok (validation g) := by
  unfold validationHandled validation
  cases h : validationBody g with
  | ok r => rfl
  | error e => cases e; rfl

/-- C10: the two field-specific IP-error branches of `validation` are dead code:
no input ever makes `validation` show the "Core Switch 1 field is empty or IP is
invalid" or the "Core Switch 1 IP is invalid" dialog, because `ip_address` either
raises (handled by the generic dialog) or returns an object that is always
truthy. -/
theorem field_specific_ip_dialogs_unreachable (g : GuiState) :
    (((validation g).2.contains (Dialog.error "Error" msgCoreSwitch1Invalid)) ||
     ((validation g).2.contains (Dialog.error "Error" msgCoreSwitch2Invalid))) = false := by
  rw [validation_spec]
  have h : ∀ d, firstFail (orderedRules g.form) = some d →
      d ≠ Dialog.error "Error" msgCoreSwitch1Invalid ∧
      d ≠ Dialog.error "Error" msgCoreSwitch2Invalid := by
    intro d hd
    simp only [orderedRules, firstFail] at hd
    split_ifs at hd
    all_goals
      rw [← Option.some.inj hd]
      exact ⟨by decide, by decide⟩
  cases hf : firstFail (orderedRules g.form) with
  | none => rfl
  | some d =>
    obtain ⟨hd1, hd2⟩ := h d hf
    simp [List.contains]
    exact ⟨fun hh => hd1 hh.symm, fun hh => hd2 hh.symm⟩

end CDPAudit

namespace CDPAudit

/-- C2 counterexample: with Core Switch 1 = "999.999.999.999" and every earlier
field filled in validly (the spec's Scenario B), the dialog shown is the generic
invalid-IP one of the `except ValueError:` handler; its text does not name the
Core Switch 1 field (while the dead field-specific dialog would have). -/
theorem invalid_cs1_shows_generic_not_field_dialog :
    validation stateScenarioB =
      (stateScenarioB, [Dialog.error "Error" msgGenericInvalidIP]) ∧
    containsSeq "Core Switch 1".data msgGenericInvalidIP.data = false ∧
    containsSeq "Core Switch 1".data msgCoreSwitch1Invalid.data = true ∧
    msgGenericInvalidIP ≠ msgCoreSwitch1Invalid := by decide

/-- C2 (amended): for every Core Switch 1 string on which `ipaddress.ip_address`
raises `ValueError` (every string that is not a valid IPv4/IPv6 literal, the empty
string included), with all earlier required fields passing, `validation` shows the
generic "One of the IP Addresses you provided is invalid" error dialog — not a
dialog naming the Core Switch 1 field. -/
theorem invalid_cs1_yields_generic_dialog (g : GuiState)
    (hs : g.form.siteName ≠ "") (hu : g.form.username ≠ "") (hp : g.form.password ≠ "")
    (ha : ¬ (g.form.retryWithAnswerCreds = "Yes" ∧ g.form.answerPassword = ""))
    (h5 : ip_address g.form.coreSwitch1 = Except.error PyExc.valueError) :
    validation g = (g, [Dialog.error "Error" msgGenericInvalidIP]) := by
  rw [validation_spec]
  simp [orderedRules, firstFail, Except.isOk, Except.toBool, hs, hu, hp, ha, h5]

/-- Witness for C2 (amended) at Scenario B. -/
theorem invalid_cs1_yields_generic_dialog_witness :
    validation stateScenarioB =
      (stateScenarioB, [Dialog.error "Error" msgGenericInvalidIP]) :=
  invalid_cs1_yields_generic_dialog stateScenarioB
    (by decide) (by decide) (by decide) (by decide) (by decide)

/-- C3 counterexample: with Core Switch 2 = "abc" (non-empty, invalid) and every
earlier rule passing, the dialog shown is the generic invalid-IP one; neither it
nor even the dead dedicated branch's dialog (which says "Core Switch 1") names
the Core Switch 2 field. -/
theorem invalid_cs2_shows_generic_not_field_dialog :
    validation stateInvalidCS2 =
      (stateInvalidCS2, [Dialog.error "Error" msgGenericInvalidIP]) ∧
    containsSeq "Core Switch 2".data msgGenericInvalidIP.data = false ∧
    containsSeq "Core Switch 2".data msgCoreSwitch2Invalid.data = false := by decide

/-- C3 (amended): for every non-empty Core Switch 2 string on which
`ipaddress.ip_address` raises `ValueError`, with all earlier rules passing,
`validation` shows the generic "One of the IP Addresses you provided is invalid"
error dialog — not a dialog naming the Core Switch 2 field. -/
theorem invalid_cs2_yields_generic_dialog (g : GuiState)
    (hs : g.form.siteName ≠ "") (hu : g.form.username ≠ "") (hp : g.form.password ≠ "")
    (ha : ¬ (g.form.retryWithAnswerCreds = "Yes" ∧ g.form.answerPassword = ""))
    (_h5 : (ip_address g.form.coreSwitch1).isOk = true)
    (h6 : g.form.coreSwitch2 ≠ "")
    (h7 : ip_address g.form.coreSwitch2 = Except.error PyExc.valueError) :
    validation g = (g, [Dialog.error "Error" msgGenericInvalidIP]) := by
  rw [validation_spec]
  simp [orderedRules, firstFail, Except.isOk, Except.toBool, hs, hu, hp, ha, h6, h7]

/-- Witness for C3 (amended) at the concrete invalid-Core-Switch-2 state. -/
theorem invalid_cs2_yields_generic_dialog_witness :
    validation stateInvalidCS2 =
      (stateInvalidCS2, [Dialog.error "Error" msgGenericInvalidIP]) :=
  invalid_cs2_yields_generic_dialog stateInvalidCS2
    (by decide) (by decide) (by decide) (by decide) (by decide) (by decide) (by decide)

/-- C4: with the first three fields non-empty, `retryWithAnswerCreds = "No"`
makes the answer-password rule pass — `validation`'s outcome is decided entirely
by the remaining IP and folder rules — while `retryWithAnswerCreds = "Yes"` with
an empty answer password fails with the answer-password dialog. -/
theorem answer_password_required_iff_retry_yes (g : GuiState)
    (hs : g.form.siteName ≠ "") (hu : g.form.username ≠ "") (hp : g.form.password ≠ "") :
    (g.form.retryWithAnswerCreds = "No" →
      (validation g).2 =
        (match firstFail ((orderedRules g.form).drop 4) with
         | some d => [d]
         | none => [Dialog.info "Information" msgRunningInBackground])) ∧
    (g.form.retryWithAnswerCreds = "Yes" → g.form.answerPassword = "" →
      validation g = (g, [Dialog.error "Error" msgAnswerPasswordEmpty])) := by
  constructor
  · intro hr
    rw [validation_spec]
    have hd : firstFail (orderedRules g.form) = firstFail ((orderedRules g.form).drop 4) := by
      simp [orderedRules, firstFail, hs, hu, hp, hr]
    rw [hd]
    cases firstFail ((orderedRules g.form).drop 4) <;> rfl
  · intro hr hap
    rw [validation_spec]
    simp [orderedRules, firstFail, hs, hu, hp, hr, hap]

/-- Witness for C4: the concrete missing-answer-password state fails with the
answer-password dialog. -/
theorem answer_password_required_iff_retry_yes_witness :
    validation stateMissingAnswerPW =
      (stateMissingAnswerPW, [Dialog.error "Error" msgAnswerPasswordEmpty]) :=
  (answer_password_required_iff_retry_yes stateMissingAnswerPW
    (by decide) (by decide) (by decide)).2 rfl rfl

/-- C5: when Core Switch 2 is empty and every earlier rule passes, its IP rule is
skipped entirely: `validation` moves straight to the results-folder rule, so the
outcome is the folder dialog or success — never an IP-format error for Core
Switch 2. -/
theorem empty_cs2_skips_ip_rule (g : GuiState)
    (h2 : g.form.coreSwitch2 = "")
    (hs : g.form.siteName ≠ "") (hu : g.form.username ≠ "") (hp : g.form.password ≠ "")
    (ha : ¬ (g.form.retryWithAnswerCreds = "Yes" ∧ g.form.answerPassword = ""))
    (h1 : (ip_address g.form.coreSwitch1).isOk = true) :
    validation g =
      (if g.form.resultsFolder = "" then (g, [Dialog.error "Error" msgFolderEmpty])
       else (submitSuccess g, [Dialog.info "Information" msgRunningInBackground])) := by
  obtain ⟨a1, ha1⟩ : ∃ a, ip_address g.form.coreSwitch1 = Except.ok a := by
    cases hip : ip_address g.form.coreSwitch1 with
    | ok a => exact ⟨a, rfl⟩
    | error e => rw [hip] at h1; simp [Except.isOk, Except.toBool] at h1
  rw [validation_spec]
  by_cases hf : g.form.resultsFolder = "" <;>
    simp [orderedRules, firstFail, Except.isOk, Except.toBool, hs, hu, hp, ha, ha1, h2, hf]

/-- Witness for C5: with Core Switch 2 empty, validation reaches the folder rule
and reports the folder dialog (no IP error for Core Switch 2). -/
theorem empty_cs2_skips_ip_rule_witness :
    validation stateEmptyFolder =
      (stateEmptyFolder, [Dialog.error "Error" msgFolderEmpty]) := by
  have h := empty_cs2_skips_ip_rule stateEmptyFolder
    (by decide) (by decide) (by decide) (by decide) (by decide) (by decide)
  simpa using h

end CDPAudit

namespace CDPAudit

/-- C6: when all seven rules pass, submission succeeds: the form values are kept
unchanged (frozen), every input widget is disabled, the window is destroyed (the
host's signal that background work begins), and the controller is in the terminal
`Submitted` state. -/
theorem submit_success_freezes_and_closes (g : GuiState)
    (hs : g.form.siteName ≠ "") (hu : g.form.username ≠ "") (hp : g.form.password ≠ "")
    (ha : ¬ (g.form.retryWithAnswerCreds = "Yes" ∧ g.form.answerPassword = ""))
    (h1 : (ip_address g.form.coreSwitch1).isOk = true)
    (h2 : g.form.coreSwitch2 = "" ∨ (ip_address g.form.coreSwitch2).isOk = true)
    (hf : g.form.resultsFolder ≠ "") :
    validation g = (submitSuccess g, [Dialog.info "Information" msgRunningInBackground]) ∧
    (validation g).1.form = g.form ∧
    frozenWidgets (validation g).1.widgets = true ∧
    (validation g).1.windowOpen = false ∧
    ctrlState (validation g).1 = CtrlState.Submitted := by
  obtain ⟨a1, ha1⟩ : ∃ a, ip_address g.form.coreSwitch1 = Except.ok a := by
    cases hip : ip_address g.form.coreSwitch1 with
    | ok a => exact ⟨a, rfl⟩
    | error e => rw [hip] at h1; simp [Except.isOk, Except.toBool] at h1
  have hv : validation g =
      (submitSuccess g, [Dialog.info "Information" msgRunningInBackground]) := by
    rw [validation_spec]
    rcases h2 with h2 | h2
    · simp [orderedRules, firstFail, Except.isOk, Except.toBool, hs, hu, hp, ha, ha1, h2, hf]
    · obtain ⟨a2, ha2⟩ : ∃ a, ip_address g.form.coreSwitch2 = Except.ok a := by
        cases hip : ip_address g.form.coreSwitch2 with
        | ok a => exact ⟨a, rfl⟩
        | error e => rw [hip] at h2; simp [Except.isOk, Except.toBool] at h2
      simp [orderedRules, firstFail, Except.isOk, Except.toBool, hs, hu, hp, ha, ha1, ha2, hf]
  refine ⟨hv, ?_, ?_, ?_, ?_⟩ <;> rw [hv] <;>
    simp [submitSuccess, frozenWidgets, ctrlState]

/-- Witness for C6 at Scenario A: submission succeeds, freezing and closing. -/
theorem submit_success_freezes_and_closes_witness :
    validation stateScenarioA =
      (submitSuccess stateScenarioA, [Dialog.info "Information" msgRunningInBackground]) ∧
    ctrlState (validation stateScenarioA).1 = CtrlState.Submitted := by
  have h := submit_success_freezes_and_closes stateScenarioA
    (by decide) (by decide) (by decide) (by decide) (by decide) (Or.inl rfl) (by decide)
  exact ⟨h.1, h.2.2.2.2⟩

/-- C7: whenever some rule fails, `validation` returns the GUI state unchanged —
no field modified, no widget disabled, window still open, controller still in
`Editing` — and shows exactly one error dialog. -/
theorem submit_failure_remains_editing (g : GuiState) (d : Dialog)
    (h : firstFail (orderedRules g.form) = some d) :
    (validation g).1 = g ∧
    (∃ m, (validation g).2 = [Dialog.error "Error" m]) ∧
    ctrlState (validation g).1 = ctrlState g := by
  have hv : validation g = (g, [d]) := by rw [validation_spec, h]
  obtain ⟨m, hm⟩ := orderedRules_fail_is_error_dialog g.form d h
  exact ⟨by rw [hv], ⟨m, by rw [hv, hm]⟩, by rw [hv]⟩

/-- Witness for C7 at the concrete empty-site-name state. -/
theorem submit_failure_remains_editing_witness :
    (validation stateEmptySiteName).1 = stateEmptySiteName ∧
    (∃ m, (validation stateEmptySiteName).2 = [Dialog.error "Error" m]) ∧
    ctrlState (validation stateEmptySiteName).1 = ctrlState stateEmptySiteName :=
  submit_failure_remains_editing stateEmptySiteName
    (Dialog.error "Error" msgSiteNameEmpty) (by decide)

/-- C8 counterexample: cancelling the directory dialog does not leave the
previously chosen results folder untouched — `get_folder_path` stores the
dialog's empty-string cancel result, clearing "/tmp/out". -/
theorem cancel_folder_dialog_clears_prior_value :
    (get_folder_path statePriorFolder none).form.resultsFolder = "" ∧
    (get_folder_path statePriorFolder none).form.resultsFolder ≠
      statePriorFolder.form.resultsFolder := by decide

/-- C8 (amended): `get_folder_path` stores the chosen directory path into the
results-folder field when the user selects one, and stores the empty string —
overwriting any prior value — when the user cancels; nothing else changes. -/
theorem get_folder_path_stores_dialog_result (g : GuiState) (choice : Option String) :
    (get_folder_path g choice).form.resultsFolder =
      (match choice with | some p => p | none => "") ∧
    (get_folder_path g choice).form.siteName = g.form.siteName ∧
    (get_folder_path g choice).form.username = g.form.username ∧
    (get_folder_path g choice).form.password = g.form.password ∧
    (get_folder_path g choice).form.retryWithAnswerCreds = g.form.retryWithAnswerCreds ∧
    (get_folder_path g choice).form.answerPassword = g.form.answerPassword ∧
    (get_folder_path g choice).form.coreSwitch1 = g.form.coreSwitch1 ∧
    (get_folder_path g choice).form.coreSwitch2 = g.form.coreSwitch2 ∧
    (get_folder_path g choice).form.jumpServer = g.form.jumpServer ∧
    (get_folder_path g choice).form.debugging = g.form.debugging ∧
    (get_folder_path g choice).widgets = g.widgets ∧
    (get_folder_path g choice).windowOpen = g.windowOpen := by
  cases choice <;> simp [get_folder_path]

end CDPAudit

namespace CDPAudit

/-! ## Fidelity checks of the `ipaddress` model against CPython

Each example records the verdict CPython 3's `ipaddress.ip_address` gives on the
same string (accepted with the shown integer value / scope id, or `ValueError`). -/

example : ip_address "10.0.0.1" = Except.ok (PyIPAddr.v4 167772161) := by decide

example : ip_address "0.0.0.0" = Except.ok (PyIPAddr.v4 0) := by decide

example : ip_address "255.255.255.255" = Except.ok (PyIPAddr.v4 4294967295) := by decide

example : ip_address "999.999.999.999" = Except.error PyExc.valueError := by decide

example : ip_address "" = Except.error PyExc.valueError := by decide

example : ip_address "abc" = Except.error PyExc.valueError := by decide

example : ip_address "256.1.1.1" = Except.error PyExc.valueError := by decide

example : ip_address "1.2.3" = Except.error PyExc.valueError := by decide

example : ip_address "1.2.3.4.5" = Except.error PyExc.valueError := by decide

example : ip_address "1.2.3.04" = Except.error PyExc.valueError := by decide

example : ip_address "10.0.0.1/24" = Except.error PyExc.valueError := by decide

example : ip_address " 10.0.0.1" = Except.error PyExc.valueError := by decide

example : ip_address "::1" = Except.ok (PyIPAddr.v6 1 none) := by decide

example : ip_address "::" = Except.ok (PyIPAddr.v6 0 none) := by decide

example : (ip_address "1:2:3:4:5:6:7:8").isOk = true := by decide

example : (ip_address "0:0:0:0:0:0:0:0").isOk = true := by decide

example : (ip_address "::2:3:4:5:6:7:8").isOk = true := by decide

example : ip_address "::ffff:1.2.3.4" = Except.ok (PyIPAddr.v6 281470698652420 none) := by decide

example : ip_address "::1.2.3.4" = Except.ok (PyIPAddr.v6 16909060 none) := by decide

example : (ip_address "1:2:3:4:5:6:1.2.3.4").isOk = true := by decide

example : ip_address "::%eth0" = Except.ok (PyIPAddr.v6 0 (some ['e', 't', 'h', '0'])) := by decide

example : (ip_address "fe80::1%eth0").isOk = true := by decide

example : ip_address "1:2:3:4:5:6:7" = Except.error PyExc.valueError := by decide

example : ip_address ":::" = Except.error PyExc.valueError := by decide

example : ip_address "1::2::3" = Except.error PyExc.valueError := by decide

example : ip_address ":1:2:3:4:5:6:7" = Except.error PyExc.valueError := by decide

example : ip_address "1:2:3:4:5:6:7:" = Except.error PyExc.valueError := by decide

example : ip_address "1::2:3:4:5:6:7:8" = Except.error PyExc.valueError := by decide

example : ip_address "1:2:3:4:5:6:7::8" = Except.error PyExc.valueError := by decide

example : ip_address "1.2.3.4::" = Except.error PyExc.valueError := by decide

example : ip_address "00000::1" = Except.error PyExc.valueError := by decide

example : ip_address "fffff::" = Except.error PyExc.valueError := by decide

example : ip_address "::ffff:999.1.1.1" = Except.error PyExc.valueError := by decide

example : ip_address "::%" = Except.error PyExc.valueError := by decide

example : ip_address "a::b%x%y" = Except.error PyExc.valueError := by decide

example : ip_address "1:2:3:4:5:6:1.2.3.4.5" = Except.error PyExc.valueError := by decide

end CDPAudit
